import Mathlib

/-!
Shallow embedding of the splits-sdk Templates client (`templates.ts`):
the `createRecoup` transaction pipeline shared by the Execute,
EstimateGas and BuildCallData client variants, plus the facade methods
and the client constructor's chain-id check.

Code present in `src` (the templates module and the swapper test file)
is embedded directly.  Helpers that live in modules absent from `src`
(the `BaseTransactions` class, the constants table, `utils/validation`,
`getTransactionEvents`, `getRecoupTranchesAndSizes`) are modelled from
the spec; each such definition carries a doc comment saying so.
-/

/-- Decidable equality for `Except` results, so concrete runs of the
embedded pipeline can be checked by `decide`. -/
instance exceptDecEq {ε α : Type} [DecidableEq ε] [DecidableEq α] :
    DecidableEq (Except ε α) := fun x y =>
  match x, y with
  | Except.ok a, Except.ok b =>
    if h : a = b then Decidable.isTrue (by rw [h])
    else Decidable.isFalse (by intro hh; cases hh; exact h rfl)
  | Except.error a, Except.error b =>
    if h : a = b then Decidable.isTrue (by rw [h])
    else Decidable.isFalse (by intro hh; cases hh; exact h rfl)
  | Except.ok _, Except.error _ => Decidable.isFalse (by intro hh; cases hh)
  | Except.error _, Except.ok _ => Decidable.isFalse (by intro hh; cases hh)

/-- An Ethereum-style address, carried as its string text. -/
structure Address where
  text : String
deriving DecidableEq

/-- `AddressZero` from ethers: the distinguished zero-address sentinel. -/
def AddressZero : Address :=
  ⟨"0x0000000000000000000000000000000000000000"⟩

/-- True for hexadecimal digit characters. -/
def isHexDigit (c : Char) : Bool :=
  (('0' ≤ c) && (c ≤ '9')) || (('a' ≤ c) && (c ≤ 'f')) || (('A' ≤ c) && (c ≤ 'F'))

/-- Modelled from the spec: an address is "a validated fixed-length
hexadecimal identifier" (§3) — `0x` followed by 40 hex digits. -/
def isValidAddress (a : Address) : Bool :=
  match a.text.data with
  | '0' :: 'x' :: rest => rest.length == 40 && rest.all isHexDigit
  | _ => false

/-- The error taxonomy of §7.  `invalidResponse` models the
`Error('Invalid response')` thrown by the mode guards; `providerRequired`
models the `Error('Provider required')` at templates.ts line 75. -/
inductive SplitsError where
  | invalidArgument (msg : String)
  | invalidConfig
  | missingProvider
  | missingSigner
  | unsupportedChainId (chainId : Nat) (supported : List Nat)
  | transactionFailed
  | invalidResponse
  | providerRequired
deriving DecidableEq

/-- The `TransactionType` enum from `constants`: one transaction kind per
client variant (Execute / BuildCallData / EstimateGas). -/
inductive TransactionType where
  | transaction
  | callData
  | gasEstimate
deriving DecidableEq

/-- One waterfall tranche of a `CreateRecoupConfig`: a recipient and a size. -/
structure Tranche where
  recipient : Address
  size : Nat
deriving DecidableEq

/-- The `CreateRecoupConfig` argument object of `createRecoup`; the two
optional fields carry the destructuring defaults (`AddressZero`,
`undefined`) already applied. -/
structure CreateRecoupConfig where
  token : Address
  tranches : List Tranche
  nonWaterfallRecipientAddress : Address := AddressZero
  nonWaterfallRecipientTrancheIndex : Option Nat := none
deriving DecidableEq

/-- Decoded arguments of a matched log (`event.args`); `createRecoup`
reads `args.waterfallModule`. -/
structure EventArgs where
  waterfallModule : Address
deriving DecidableEq

/-- A decoded on-chain log record: its identifying topic and its decoded
arguments (`args` may be absent, as in ethers). -/
structure Event where
  topic : String
  args : Option EventArgs
deriving DecidableEq

/-- A mined `ContractTransaction` handle, carrying the emitted logs the
event extractor scans. -/
structure ContractTransaction where
  events : List Event
deriving DecidableEq

/-- Modelled from the spec: the `CallData` payload shape of §6 —
`{ target, value, data }` for the BuildCallData mode. -/
structure CallData where
  target : Address
  value : Nat
  data : String
deriving DecidableEq

/-- `TransactionFormat`: the raw result of the underlying contract call,
whose shape depends on the bound transaction type. -/
inductive TransactionFormat where
  | contractTransaction (tx : ContractTransaction)
  | gasEstimate (gas : Nat)
  | callData (cd : CallData)
deriving DecidableEq

/-- `BaseTransactions._isContractTransaction`: the Execute-mode shape guard. -/
def isContractTransaction : TransactionFormat → Bool
  | TransactionFormat.contractTransaction _ => true
  | _ => false

/-- `BaseTransactions._isBigNumber`: the EstimateGas-mode shape guard. -/
def isBigNumber : TransactionFormat → Bool
  | TransactionFormat.gasEstimate _ => true
  | _ => false

/-- `BaseTransactions._isCallData`: the BuildCallData-mode shape guard. -/
def isCallData : TransactionFormat → Bool
  | TransactionFormat.callData _ => true
  | _ => false

/-- The state a constructed client carries: its bound transaction type,
chain id, and whether a provider / signer were configured. -/
structure ClientState where
  transactionType : TransactionType
  chainId : Nat
  hasProvider : Bool
  hasSigner : Bool
deriving DecidableEq

/-- The user-facing `SplitsClientConfig` slice the embedding needs. -/
structure TemplatesConfig where
  chainId : Nat
  hasProvider : Bool
  hasSigner : Bool
deriving DecidableEq

/-- The client state a sub-client bound to transaction type `tt` holds. -/
def clientState (tt : TransactionType) (tc : TemplatesConfig) : ClientState :=
  { transactionType := tt, chainId := tc.chainId,
    hasProvider := tc.hasProvider, hasSigner := tc.hasSigner }

/-- Modelled from the spec: `validateAddress` (from `utils/validation`,
absent from src) fails with an `InvalidArgumentError` naming the
offending value when the address is not checksum/shape valid (§4.2). -/
def validateAddress (address : Address) : Except SplitsError Unit :=
  if isValidAddress address then Except.ok ()
  else Except.error (SplitsError.invalidArgument ("Invalid address: " ++ address.text))

/-- Modelled from the spec: `validateRecoupTranches` (absent from src);
§4.2 requires each tranche's recipient address to validate. -/
def validateRecoupTranches : List Tranche → Except SplitsError Unit
  | [] => Except.ok ()
  | t :: rest =>
    match validateAddress t.recipient with
    | Except.ok _ => validateRecoupTranches rest
    | Except.error e => Except.error e

/-- Modelled from the spec: `validateRecoupNonWaterfallRecipient` (absent
from src).  §4.2 cross-field rule: the tranche index must be `undefined`
exactly when the recipient address is the zero sentinel, and must
reference a valid tranche index otherwise; mismatches fail with a
dedicated `InvalidArgumentError`. -/
def validateRecoupNonWaterfallRecipient (numTranches : Nat) (addr : Address)
    (idx : Option Nat) : Except SplitsError Unit :=
  match idx with
  | some i =>
    if addr = AddressZero then
      Except.error (SplitsError.invalidArgument
        "Cannot set a tranche index without a non waterfall recipient")
    else if numTranches ≤ i then
      Except.error (SplitsError.invalidArgument "Invalid tranche index")
    else Except.ok ()
  | none =>
    if addr = AddressZero then Except.ok ()
    else Except.error (SplitsError.invalidArgument
      "Must specify the tranche index for the non waterfall recipient")

/-- Modelled from the spec: `BaseTransactions._requireProvider` — fails
with `MissingProviderError` when no provider is configured (§4.4 rule 1). -/
def requireProvider (c : ClientState) : Except SplitsError Unit :=
  if c.hasProvider then Except.ok ()
  else Except.error SplitsError.missingProvider

/-- Modelled from the spec: `BaseTransactions._requireSigner` — fails with
`MissingSignerError` when no signer is configured (§4.4 rule 2). -/
def requireSigner (c : ClientState) : Except SplitsError Unit :=
  if c.hasSigner then Except.ok ()
  else Except.error SplitsError.missingSigner

/-- Modelled from the spec: `BaseTransactions._shouldRequireSigner` — a
signer is required exactly for the Execute transaction type (§4.4:
"EstimateGas and BuildCallData do not require a signer"). -/
def shouldRequireSigner (c : ClientState) : Bool :=
  match c.transactionType with
  | TransactionType.transaction => true
  | _ => false

/-- The formatter `getRecoupTranchesAndSizes` (absent from src) builds the
positional `(recoupTranches, trancheSizes)` pair from the chain id, token
and tranches; the embedding abstracts over it as a function parameter. -/
abbrev RecoupFormatter := Nat → Address → List Tranche → (List Address × List Nat)

/-- The positional argument tuple handed to
`_recoupContract.createRecoup` (templates.ts lines 85-91). -/
structure RecoupCallArgs where
  token : Address
  nonWaterfallRecipientAddress : Address
  nonWaterfallRecipientTrancheIndex : Option Nat
  recoupTranches : List Address
  trancheSizes : List Nat
deriving DecidableEq

/-- The underlying contract call (`_recoupContract.createRecoup`): the
network's answer to an argument tuple, abstracted as a parameter. -/
abbrev RecoupContract := RecoupCallArgs → TransactionFormat

namespace TemplatesTransactions

/-- `TemplatesTransactions._createRecoupTransaction` (templates.ts
lines 59-94): validate, check provider then (conditionally) signer,
format the tranches, and pass the tuple to the contract call. -/
def createRecoupTransaction (c : ClientState) (fmt : RecoupFormatter)
    (call : RecoupContract) (cfg : CreateRecoupConfig) :
    Except SplitsError TransactionFormat := do
  validateAddress cfg.token
  validateAddress cfg.nonWaterfallRecipientAddress
  validateRecoupTranches cfg.tranches
  validateRecoupNonWaterfallRecipient cfg.tranches.length
    cfg.nonWaterfallRecipientAddress cfg.nonWaterfallRecipientTrancheIndex
  requireProvider c
  if !c.hasProvider then
    Except.error SplitsError.providerRequired
  else do
    if shouldRequireSigner c then requireSigner c else pure ()
    let ts := fmt c.chainId cfg.token cfg.tranches
    Except.ok (call
      { token := cfg.token,
        nonWaterfallRecipientAddress := cfg.nonWaterfallRecipientAddress,
        nonWaterfallRecipientTrancheIndex := cfg.nonWaterfallRecipientTrancheIndex,
        recoupTranches := ts.1,
        trancheSizes := ts.2 })

end TemplatesTransactions

/-- The argument tuple the spec says every mode passes to the underlying
call: the validated config fields plus the formatter's output (stated in
the spec's words for the refinement claim C5). -/
def recoupCallArgs (fmt : RecoupFormatter) (chainId : Nat)
    (cfg : CreateRecoupConfig) : RecoupCallArgs :=
  { token := cfg.token,
    nonWaterfallRecipientAddress := cfg.nonWaterfallRecipientAddress,
    nonWaterfallRecipientTrancheIndex := cfg.nonWaterfallRecipientTrancheIndex,
    recoupTranches := (fmt chainId cfg.token cfg.tranches).1,
    trancheSizes := (fmt chainId cfg.token cfg.tranches).2 }

/-- Modelled from the spec: the event topic hash of the `CreateRecoup`
event (`recoupInterface.getEventTopic('CreateRecoup')`), an opaque
identifying string. -/
def createRecoupEventTopic : String := "topic:CreateRecoup"

namespace TemplatesClient

/-- `TemplatesClient.eventTopics.createRecoup`: the expected-topic list
bound at construction. -/
def eventTopics : List String := [createRecoupEventTopic]

end TemplatesClient

/-- Modelled from the spec: `getTransactionEvents` (absent from src) —
the EventExtractor of §4.5: scan the mined transaction's logs and keep
those whose topic matches one of the candidate topics, in log order. -/
def getTransactionEvents (tx : ContractTransaction)
    (eventTopics : List String) : List Event :=
  tx.events.filter (fun e => eventTopics.contains e.topic)

namespace TemplatesClient

/-- `TemplatesClient.submitCreateRecoupTransaction` (templates.ts lines
151-169): build the transaction in Execute mode and guard its shape. -/
def submitCreateRecoupTransaction (tc : TemplatesConfig)
    (fmt : RecoupFormatter) (call : RecoupContract)
    (cfg : CreateRecoupConfig) : Except SplitsError ContractTransaction := do
  let createRecoupTx ← TemplatesTransactions.createRecoupTransaction
    (clientState TransactionType.transaction tc) fmt call cfg
  match createRecoupTx with
  | TransactionFormat.contractTransaction tx => Except.ok tx
  | _ => Except.error SplitsError.invalidResponse

end TemplatesClient

/-- The Execute-mode result shape `{ waterfallModuleId, event }`. -/
structure CreateRecoupResult where
  waterfallModuleId : Address
  event : Event
deriving DecidableEq

namespace TemplatesClient

/-- `TemplatesClient.createRecoup` (templates.ts lines 171-198): submit,
extract the matching events, and return the first decoded one — or fail
with `TransactionFailedError`. -/
def createRecoup (tc : TemplatesConfig) (fmt : RecoupFormatter)
    (call : RecoupContract) (cfg : CreateRecoupConfig) :
    Except SplitsError CreateRecoupResult := do
  let createRecoupTx ← submitCreateRecoupTransaction tc fmt call cfg
  let events := getTransactionEvents createRecoupTx eventTopics
  match events.head? with
  | some event =>
    match event.args with
    | some args => Except.ok { waterfallModuleId := args.waterfallModule, event := event }
    | none => Except.error SplitsError.transactionFailed
  | none => Except.error SplitsError.transactionFailed

end TemplatesClient

namespace TemplatesGasEstimates

/-- `TemplatesGasEstimates.createRecoup` (templates.ts lines 219-234):
build in EstimateGas mode and guard the BigNumber shape. -/
def createRecoup (tc : TemplatesConfig) (fmt : RecoupFormatter)
    (call : RecoupContract) (cfg : CreateRecoupConfig) :
    Except SplitsError Nat := do
  let gasEstimate ← TemplatesTransactions.createRecoupTransaction
    (clientState TransactionType.gasEstimate tc) fmt call cfg
  match gasEstimate with
  | TransactionFormat.gasEstimate g => Except.ok g
  | _ => Except.error SplitsError.invalidResponse

end TemplatesGasEstimates

namespace TemplatesCallData

/-- `TemplatesCallData.createRecoup` (templates.ts lines 255-270): build
in BuildCallData mode and guard the CallData shape. -/
def createRecoup (tc : TemplatesConfig) (fmt : RecoupFormatter)
    (call : RecoupContract) (cfg : CreateRecoupConfig) :
    Except SplitsError CallData := do
  let callDataResult ← TemplatesTransactions.createRecoupTransaction
    (clientState TransactionType.callData tc) fmt call cfg
  match callDataResult with
  | TransactionFormat.callData cd => Except.ok cd
  | _ => Except.error SplitsError.invalidResponse

end TemplatesCallData

/-- Modelled from the spec: `TEMPLATES_CHAIN_IDS` (the constants table is
absent from src).  The supported-chain list enumerated by the test file
(Ethereum, Polygon, Optimism, Arbitrum ids). -/
def TEMPLATES_CHAIN_IDS : List Nat := [1, 5, 137, 80001, 10, 420, 42161, 421613]

/-- Modelled from the spec: the `BaseTransactions` constructor (absent
from src) — fails with `InvalidConfigError` when ENS names are requested
without a provider, otherwise records the configuration. -/
def baseConstruct (tt : TransactionType) (chainId : Nat)
    (hasProvider hasSigner includeEnsNames : Bool) :
    Except SplitsError ClientState :=
  if includeEnsNames && !hasProvider then Except.error SplitsError.invalidConfig
  else Except.ok { transactionType := tt, chainId := chainId,
                   hasProvider := hasProvider, hasSigner := hasSigner }

namespace TemplatesClient

/-- The `TemplatesClient` constructor (templates.ts lines 110-148): run
the base constructor, reject chain ids outside `TEMPLATES_CHAIN_IDS`
with an `UnsupportedChainIdError` carrying the supported list, then
construct the callData and estimateGas sub-clients. -/
def construct (chainId : Nat) (hasProvider hasSigner includeEnsNames : Bool) :
    Except SplitsError ClientState := do
  let st ← baseConstruct TransactionType.transaction chainId
    hasProvider hasSigner includeEnsNames
  if chainId ∈ TEMPLATES_CHAIN_IDS then do
    let _ ← baseConstruct TransactionType.callData chainId
      hasProvider hasSigner includeEnsNames
    let _ ← baseConstruct TransactionType.gasEstimate chainId
      hasProvider hasSigner includeEnsNames
    Except.ok st
  else
    Except.error (SplitsError.unsupportedChainId chainId TEMPLATES_CHAIN_IDS)

end TemplatesClient

/-! ## Helper lemmas -/

theorem exceptOkBind {α β : Type} (a : α) (f : α → Except SplitsError β) :
    (Except.ok a >>= f : Except SplitsError β) = f a := rfl

theorem exceptErrorBind {α β : Type} (e : SplitsError) (f : α → Except SplitsError β) :
    (Except.error e >>= f : Except SplitsError β) = Except.error e := rfl

theorem clientState_hasProvider (tt : TransactionType) (tc : TemplatesConfig) :
    (clientState tt tc).hasProvider = tc.hasProvider := rfl

theorem clientState_hasSigner (tt : TransactionType) (tc : TemplatesConfig) :
    (clientState tt tc).hasSigner = tc.hasSigner := rfl

theorem clientState_chainId (tt : TransactionType) (tc : TemplatesConfig) :
    (clientState tt tc).chainId = tc.chainId := rfl

/-- Run lemma: with all four validations passing, a provider present, and
the signer present whenever the mode requires one, the shared builder
passes the formatted tuple to the contract call and returns its answer. -/
theorem createRecoupTransaction_ok (c : ClientState) (fmt : RecoupFormatter)
    (call : RecoupContract) (cfg : CreateRecoupConfig)
    (h1 : validateAddress cfg.token = Except.ok ())
    (h2 : validateAddress cfg.nonWaterfallRecipientAddress = Except.ok ())
    (h3 : validateRecoupTranches cfg.tranches = Except.ok ())
    (h4 : validateRecoupNonWaterfallRecipient cfg.tranches.length
      cfg.nonWaterfallRecipientAddress cfg.nonWaterfallRecipientTrancheIndex = Except.ok ())
    (hp : c.hasProvider = true)
    (hsig : shouldRequireSigner c = true → c.hasSigner = true) :
    TemplatesTransactions.createRecoupTransaction c fmt call cfg =
      Except.ok (call (recoupCallArgs fmt c.chainId cfg)) := by
  have hrp : requireProvider c = Except.ok () := by simp [requireProvider, hp]
  by_cases h : shouldRequireSigner c = true
  · have hrs : requireSigner c = Except.ok () := by simp [requireSigner, hsig h]
    simp [TemplatesTransactions.createRecoupTransaction, h1, h2, h3, h4, hrp, hrs,
      hp, h, recoupCallArgs, exceptOkBind]
  · simp [TemplatesTransactions.createRecoupTransaction, h1, h2, h3, h4, hrp,
      hp, h, recoupCallArgs, exceptOkBind]

/-- Run lemma: with all four validations passing and no provider, the
shared builder fails with `MissingProviderError`. -/
theorem createRecoupTransaction_missingProvider (c : ClientState)
    (fmt : RecoupFormatter) (call : RecoupContract) (cfg : CreateRecoupConfig)
    (h1 : validateAddress cfg.token = Except.ok ())
    (h2 : validateAddress cfg.nonWaterfallRecipientAddress = Except.ok ())
    (h3 : validateRecoupTranches cfg.tranches = Except.ok ())
    (h4 : validateRecoupNonWaterfallRecipient cfg.tranches.length
      cfg.nonWaterfallRecipientAddress cfg.nonWaterfallRecipientTrancheIndex = Except.ok ())
    (hp : c.hasProvider = false) :
    TemplatesTransactions.createRecoupTransaction c fmt call cfg =
      Except.error SplitsError.missingProvider := by
  have hrp : requireProvider c = Except.error SplitsError.missingProvider := by
    simp [requireProvider, hp]
  simp [TemplatesTransactions.createRecoupTransaction, h1, h2, h3, h4, hrp,
    exceptOkBind, exceptErrorBind]

/-- Run lemma: with validations passing, a provider present, a
signer-requiring mode and no signer, the shared builder fails with
`MissingSignerError`. -/
theorem createRecoupTransaction_missingSigner (c : ClientState)
    (fmt : RecoupFormatter) (call : RecoupContract) (cfg : CreateRecoupConfig)
    (h1 : validateAddress cfg.token = Except.ok ())
    (h2 : validateAddress cfg.nonWaterfallRecipientAddress = Except.ok ())
    (h3 : validateRecoupTranches cfg.tranches = Except.ok ())
    (h4 : validateRecoupNonWaterfallRecipient cfg.tranches.length
      cfg.nonWaterfallRecipientAddress cfg.nonWaterfallRecipientTrancheIndex = Except.ok ())
    (hp : c.hasProvider = true)
    (hm : shouldRequireSigner c = true)
    (hs : c.hasSigner = false) :
    TemplatesTransactions.createRecoupTransaction c fmt call cfg =
      Except.error SplitsError.missingSigner := by
  have hrp : requireProvider c = Except.ok () := by simp [requireProvider, hp]
  have hrs : requireSigner c = Except.error SplitsError.missingSigner := by
    simp [requireSigner, hs]
  simp [TemplatesTransactions.createRecoupTransaction, h1, h2, h3, h4, hrp, hrs,
    hp, hm, exceptOkBind, exceptErrorBind]

theorem shouldRequireSigner_gasEstimate (tc : TemplatesConfig) :
    shouldRequireSigner (clientState TransactionType.gasEstimate tc) = false := rfl

theorem shouldRequireSigner_callData (tc : TemplatesConfig) :
    shouldRequireSigner (clientState TransactionType.callData tc) = false := rfl

/-- Run lemma for the Execute facade's submit step: under passing
validation, provider and signer, it is the shape-guarded contract call. -/
theorem submitCreateRecoup_run (tc : TemplatesConfig) (fmt : RecoupFormatter)
    (call : RecoupContract) (cfg : CreateRecoupConfig)
    (h1 : validateAddress cfg.token = Except.ok ())
    (h2 : validateAddress cfg.nonWaterfallRecipientAddress = Except.ok ())
    (h3 : validateRecoupTranches cfg.tranches = Except.ok ())
    (h4 : validateRecoupNonWaterfallRecipient cfg.tranches.length
      cfg.nonWaterfallRecipientAddress cfg.nonWaterfallRecipientTrancheIndex = Except.ok ())
    (hp : tc.hasProvider = true) (hs : tc.hasSigner = true) :
    TemplatesClient.submitCreateRecoupTransaction tc fmt call cfg =
      (match call (recoupCallArgs fmt tc.chainId cfg) with
       | TransactionFormat.contractTransaction tx => Except.ok tx
       | _ => Except.error SplitsError.invalidResponse) := by
  have hok := createRecoupTransaction_ok (clientState TransactionType.transaction tc)
    fmt call cfg h1 h2 h3 h4 hp (fun _ => hs)
  simp [TemplatesClient.submitCreateRecoupTransaction, hok, clientState_chainId, exceptOkBind]

/-- Run lemma for the EstimateGas facade: no signer needed; the result is
the shape-guarded contract call. -/
theorem gasEstimates_run (tc : TemplatesConfig) (fmt : RecoupFormatter)
    (call : RecoupContract) (cfg : CreateRecoupConfig)
    (h1 : validateAddress cfg.token = Except.ok ())
    (h2 : validateAddress cfg.nonWaterfallRecipientAddress = Except.ok ())
    (h3 : validateRecoupTranches cfg.tranches = Except.ok ())
    (h4 : validateRecoupNonWaterfallRecipient cfg.tranches.length
      cfg.nonWaterfallRecipientAddress cfg.nonWaterfallRecipientTrancheIndex = Except.ok ())
    (hp : tc.hasProvider = true) :
    TemplatesGasEstimates.createRecoup tc fmt call cfg =
      (match call (recoupCallArgs fmt tc.chainId cfg) with
       | TransactionFormat.gasEstimate g => Except.ok g
       | _ => Except.error SplitsError.invalidResponse) := by
  have hok := createRecoupTransaction_ok (clientState TransactionType.gasEstimate tc)
    fmt call cfg h1 h2 h3 h4 hp
    (fun h => by rw [shouldRequireSigner_gasEstimate] at h; cases h)
  simp [TemplatesGasEstimates.createRecoup, hok, clientState_chainId, exceptOkBind]

/-- Run lemma for the BuildCallData facade: no signer needed; the result
is the shape-guarded contract call. -/
theorem callData_run (tc : TemplatesConfig) (fmt : RecoupFormatter)
    (call : RecoupContract) (cfg : CreateRecoupConfig)
    (h1 : validateAddress cfg.token = Except.ok ())
    (h2 : validateAddress cfg.nonWaterfallRecipientAddress = Except.ok ())
    (h3 : validateRecoupTranches cfg.tranches = Except.ok ())
    (h4 : validateRecoupNonWaterfallRecipient cfg.tranches.length
      cfg.nonWaterfallRecipientAddress cfg.nonWaterfallRecipientTrancheIndex = Except.ok ())
    (hp : tc.hasProvider = true) :
    TemplatesCallData.createRecoup tc fmt call cfg =
      (match call (recoupCallArgs fmt tc.chainId cfg) with
       | TransactionFormat.callData cd => Except.ok cd
       | _ => Except.error SplitsError.invalidResponse) := by
  have hok := createRecoupTransaction_ok (clientState TransactionType.callData tc)
    fmt call cfg h1 h2 h3 h4 hp
    (fun h => by rw [shouldRequireSigner_callData] at h; cases h)
  simp [TemplatesCallData.createRecoup, hok, clientState_chainId, exceptOkBind]

/-- Run lemma for the full Execute facade, including event extraction. -/
theorem templatesClient_createRecoup_run (tc : TemplatesConfig)
    (fmt : RecoupFormatter) (call : RecoupContract) (cfg : CreateRecoupConfig)
    (h1 : validateAddress cfg.token = Except.ok ())
    (h2 : validateAddress cfg.nonWaterfallRecipientAddress = Except.ok ())
    (h3 : validateRecoupTranches cfg.tranches = Except.ok ())
    (h4 : validateRecoupNonWaterfallRecipient cfg.tranches.length
      cfg.nonWaterfallRecipientAddress cfg.nonWaterfallRecipientTrancheIndex = Except.ok ())
    (hp : tc.hasProvider = true) (hs : tc.hasSigner = true) :
    TemplatesClient.createRecoup tc fmt call cfg =
      (match call (recoupCallArgs fmt tc.chainId cfg) with
       | TransactionFormat.contractTransaction tx =>
         (match (getTransactionEvents tx TemplatesClient.eventTopics).head? with
          | some event =>
            (match event.args with
             | some args =>
               Except.ok { waterfallModuleId := args.waterfallModule, event := event }
             | none => Except.error SplitsError.transactionFailed)
          | none => Except.error SplitsError.transactionFailed)
       | _ => Except.error SplitsError.invalidResponse) := by
  have hsub := submitCreateRecoup_run tc fmt call cfg h1 h2 h3 h4 hp hs
  rcases hc : call (recoupCallArgs fmt tc.chainId cfg) with tx | g | cd <;>
    rw [hc] at hsub <;>
    simp [TemplatesClient.createRecoup, hsub, exceptOkBind, exceptErrorBind]

/-- The head of a filtered list whose prefix all fails the test and whose
next element passes it is that element. -/
theorem filter_head_first_match (p : Event → Bool) (pre post : List Event)
    (m : Event) (hpre : ∀ e ∈ pre, p e = false) (hm : p m = true) :
    ((pre ++ m :: post).filter p).head? = some m := by
  have hnil : pre.filter p = [] :=
    List.filter_eq_nil_iff.mpr (fun a ha => by simp [hpre a ha])
  rw [List.filter_append, hnil, List.nil_append, List.filter_cons_of_pos hm]
  rfl

/-! ## Concrete fixtures used by witnesses and counterexamples -/

def addr1 : Address := ⟨"0x0000000000000000000000000000000000000001"⟩

def addr2 : Address := ⟨"0x0000000000000000000000000000000000000002"⟩

def addr3 : Address := ⟨"0x0000000000000000000000000000000000000003"⟩

/-- A concrete formatter standing in for `getRecoupTranchesAndSizes`. -/
def sampleFmt : RecoupFormatter :=
  fun _ _ ts => (ts.map Tranche.recipient, ts.map Tranche.size)

/-- A concrete well-formed `createRecoup` configuration. -/
def sampleCfg : CreateRecoupConfig := { token := addr1, tranches := [⟨addr2, 5⟩] }

/-- A decoded `CreateRecoup` event carrying a waterfall module address. -/
def sampleEvent : Event := ⟨createRecoupEventTopic, some ⟨addr3⟩⟩

/-- A mined transaction whose log set contains the matching event. -/
def sampleTx : ContractTransaction := ⟨[sampleEvent]⟩

/-- A contract call answering with a mined transaction (Execute shape). -/
def sampleCallT : RecoupContract :=
  fun _ => TransactionFormat.contractTransaction sampleTx

/-- A contract call answering with a gas quantity (EstimateGas shape). -/
def sampleCallG : RecoupContract := fun _ => TransactionFormat.gasEstimate 21000

/-- A contract call answering with a call-data payload (BuildCallData shape). -/
def sampleCallC : RecoupContract :=
  fun _ => TransactionFormat.callData ⟨addr1, 0, "0xdeadbeef"⟩

/-- A mined transaction with a single non-matching log. -/
def unmatchedTx : ContractTransaction := ⟨[⟨"topic:Other", some ⟨addr3⟩⟩]⟩

/-! ## Claims -/

/-- C1, counterexample: on a client with no configured provider, an
ill-formed token address does NOT surface `MissingProviderError` — the
validation error surfaces first, refuting the claimed
provider-check-before-validation ordering. -/
theorem claimC1_counterexample :
    TemplatesClient.createRecoup ⟨1, false, false⟩ sampleFmt sampleCallT
        { token := ⟨"0xzz"⟩, tranches := [⟨addr2, 5⟩] } =
      Except.error (SplitsError.invalidArgument "Invalid address: 0xzz") ∧
    TemplatesClient.createRecoup ⟨1, false, false⟩ sampleFmt sampleCallT
        { token := ⟨"0xzz"⟩, tranches := [⟨addr2, 5⟩] } ≠
      Except.error SplitsError.missingProvider := by
  constructor
  · decide
  · decide

/-- C1 (amended): validation runs before the provider check in
`_createRecoupTransaction`; on a client with no provider, a mutating call
whose arguments pass validation fails with `MissingProviderError`, in
every execution mode. -/
theorem claimC1 (tc : TemplatesConfig) (fmt : RecoupFormatter)
    (call : RecoupContract) (cfg : CreateRecoupConfig)
    (h1 : validateAddress cfg.token = Except.ok ())
    (h2 : validateAddress cfg.nonWaterfallRecipientAddress = Except.ok ())
    (h3 : validateRecoupTranches cfg.tranches = Except.ok ())
    (h4 : validateRecoupNonWaterfallRecipient cfg.tranches.length
      cfg.nonWaterfallRecipientAddress cfg.nonWaterfallRecipientTrancheIndex = Except.ok ())
    (hp : tc.hasProvider = false) :
    TemplatesClient.createRecoup tc fmt call cfg =
      Except.error SplitsError.missingProvider ∧
    TemplatesGasEstimates.createRecoup tc fmt call cfg =
      Except.error SplitsError.missingProvider ∧
    TemplatesCallData.createRecoup tc fmt call cfg =
      Except.error SplitsError.missingProvider := by
  have hT := createRecoupTransaction_missingProvider
    (clientState TransactionType.transaction tc) fmt call cfg h1 h2 h3 h4 hp
  have hG := createRecoupTransaction_missingProvider
    (clientState TransactionType.gasEstimate tc) fmt call cfg h1 h2 h3 h4 hp
  have hC := createRecoupTransaction_missingProvider
    (clientState TransactionType.callData tc) fmt call cfg h1 h2 h3 h4 hp
  refine ⟨?_, ?_, ?_⟩
  · simp [TemplatesClient.createRecoup, TemplatesClient.submitCreateRecoupTransaction,
      hT, exceptErrorBind]
  · simp [TemplatesGasEstimates.createRecoup, hG, exceptErrorBind]
  · simp [TemplatesCallData.createRecoup, hC, exceptErrorBind]

/-- C1 witness: the amended claim at a concrete valid config with no
provider. -/
theorem claimC1_witness :
    TemplatesClient.createRecoup ⟨1, false, false⟩ sampleFmt sampleCallT sampleCfg =
      Except.error SplitsError.missingProvider ∧
    TemplatesGasEstimates.createRecoup ⟨1, false, false⟩ sampleFmt sampleCallT sampleCfg =
      Except.error SplitsError.missingProvider ∧
    TemplatesCallData.createRecoup ⟨1, false, false⟩ sampleFmt sampleCallT sampleCfg =
      Except.error SplitsError.missingProvider :=
  claimC1 ⟨1, false, false⟩ sampleFmt sampleCallT sampleCfg
    (by decide) (by decide) (by decide) (by decide) rfl

/-- C2: constructing a `TemplatesClient` fails with
`UnsupportedChainIdError` carrying the supported list exactly when the
chain id is outside `TEMPLATES_CHAIN_IDS`, and succeeds (with no network
interaction — the constructor is a pure function) when it is inside. -/
theorem claimC2 (chainId : Nat) (hasProvider hasSigner : Bool) :
    (chainId ∉ TEMPLATES_CHAIN_IDS →
      TemplatesClient.construct chainId hasProvider hasSigner false =
        Except.error (SplitsError.unsupportedChainId chainId TEMPLATES_CHAIN_IDS)) ∧
    (chainId ∈ TEMPLATES_CHAIN_IDS →
      TemplatesClient.construct chainId hasProvider hasSigner false =
        Except.ok { transactionType := TransactionType.transaction, chainId := chainId,
                    hasProvider := hasProvider, hasSigner := hasSigner }) := by
  constructor
  · intro h
    simp [TemplatesClient.construct, baseConstruct, h, exceptOkBind]
  · intro h
    simp [TemplatesClient.construct, baseConstruct, h, exceptOkBind]

/-- C2 witness: chain id 51 is rejected with the supported list; chain id
1 constructs successfully. -/
theorem claimC2_witness :
    TemplatesClient.construct 51 true false false =
      Except.error (SplitsError.unsupportedChainId 51 TEMPLATES_CHAIN_IDS) ∧
    TemplatesClient.construct 1 true false false =
      Except.ok { transactionType := TransactionType.transaction, chainId := 1,
                  hasProvider := true, hasSigner := false } :=
  ⟨(claimC2 51 true false).1 (by decide), (claimC2 1 true false).2 (by decide)⟩

/-- C3: when the Execute-mode transaction is mined but none of its logs
matches an expected `createRecoup` topic, the facade `createRecoup` fails
with `TransactionFailedError` instead of returning a partial result. -/
theorem claimC3 (tc : TemplatesConfig) (fmt : RecoupFormatter)
    (call : RecoupContract) (cfg : CreateRecoupConfig) (tx : ContractTransaction)
    (h1 : validateAddress cfg.token = Except.ok ())
    (h2 : validateAddress cfg.nonWaterfallRecipientAddress = Except.ok ())
    (h3 : validateRecoupTranches cfg.tranches = Except.ok ())
    (h4 : validateRecoupNonWaterfallRecipient cfg.tranches.length
      cfg.nonWaterfallRecipientAddress cfg.nonWaterfallRecipientTrancheIndex = Except.ok ())
    (hp : tc.hasProvider = true) (hs : tc.hasSigner = true)
    (hc : call (recoupCallArgs fmt tc.chainId cfg) =
      TransactionFormat.contractTransaction tx)
    (hnone : ∀ e ∈ tx.events, TemplatesClient.eventTopics.contains e.topic = false) :
    TemplatesClient.createRecoup tc fmt call cfg =
      Except.error SplitsError.transactionFailed := by
  have hrun := templatesClient_createRecoup_run tc fmt call cfg h1 h2 h3 h4 hp hs
  rw [hc] at hrun
  have hempty : getTransactionEvents tx TemplatesClient.eventTopics = [] :=
    List.filter_eq_nil_iff.mpr (fun e he => by simpa using hnone e he)
  rw [hrun]
  simp [hempty]

/-- C3 witness: a mined transaction carrying only a non-matching log
makes the Execute facade fail with `TransactionFailedError`. -/
theorem claimC3_witness :
    TemplatesClient.createRecoup ⟨1, true, true⟩ sampleFmt
        (fun _ => TransactionFormat.contractTransaction unmatchedTx) sampleCfg =
      Except.error SplitsError.transactionFailed :=
  claimC3 ⟨1, true, true⟩ sampleFmt
    (fun _ => TransactionFormat.contractTransaction unmatchedTx) sampleCfg unmatchedTx
    (by decide) (by decide) (by decide) (by decide) rfl rfl rfl (by decide)

/-- C4: a signer is required exactly in Execute mode — with a provider
but no signer, the Execute-mode builder fails with `MissingSignerError`
while the EstimateGas and BuildCallData builders succeed; and the
provider check comes first, so with no provider the Execute-mode builder
fails with `MissingProviderError` even when the signer is also absent. -/
theorem claimC4 (tc : TemplatesConfig) (fmt : RecoupFormatter)
    (call : RecoupContract) (cfg : CreateRecoupConfig)
    (h1 : validateAddress cfg.token = Except.ok ())
    (h2 : validateAddress cfg.nonWaterfallRecipientAddress = Except.ok ())
    (h3 : validateRecoupTranches cfg.tranches = Except.ok ())
    (h4 : validateRecoupNonWaterfallRecipient cfg.tranches.length
      cfg.nonWaterfallRecipientAddress cfg.nonWaterfallRecipientTrancheIndex = Except.ok ())
    (hp : tc.hasProvider = true) (hs : tc.hasSigner = false) :
    TemplatesTransactions.createRecoupTransaction
        (clientState TransactionType.transaction tc) fmt call cfg =
      Except.error SplitsError.missingSigner ∧
    TemplatesTransactions.createRecoupTransaction
        (clientState TransactionType.gasEstimate tc) fmt call cfg =
      Except.ok (call (recoupCallArgs fmt tc.chainId cfg)) ∧
    TemplatesTransactions.createRecoupTransaction
        (clientState TransactionType.callData tc) fmt call cfg =
      Except.ok (call (recoupCallArgs fmt tc.chainId cfg)) ∧
    (∀ tc2 : TemplatesConfig, tc2.hasProvider = false → tc2.hasSigner = false →
      TemplatesTransactions.createRecoupTransaction
          (clientState TransactionType.transaction tc2) fmt call cfg =
        Except.error SplitsError.missingProvider) := by
  refine ⟨?_, ?_, ?_, ?_⟩
  · exact createRecoupTransaction_missingSigner _ fmt call cfg h1 h2 h3 h4 hp rfl hs
  · exact createRecoupTransaction_ok _ fmt call cfg h1 h2 h3 h4 hp
      (fun h => by rw [shouldRequireSigner_gasEstimate] at h; cases h)
  · exact createRecoupTransaction_ok _ fmt call cfg h1 h2 h3 h4 hp
      (fun h => by rw [shouldRequireSigner_callData] at h; cases h)
  · intro tc2 hp2 _
    exact createRecoupTransaction_missingProvider _ fmt call cfg h1 h2 h3 h4 hp2

/-- C4 witness: the signer rule at a concrete valid config with a
provider and no signer. -/
theorem claimC4_witness :
    TemplatesTransactions.createRecoupTransaction
        (clientState TransactionType.transaction ⟨1, true, false⟩) sampleFmt sampleCallG sampleCfg =
      Except.error SplitsError.missingSigner ∧
    TemplatesTransactions.createRecoupTransaction
        (clientState TransactionType.gasEstimate ⟨1, true, false⟩) sampleFmt sampleCallG sampleCfg =
      Except.ok (sampleCallG (recoupCallArgs sampleFmt 1 sampleCfg)) ∧
    TemplatesTransactions.createRecoupTransaction
        (clientState TransactionType.callData ⟨1, true, false⟩) sampleFmt sampleCallG sampleCfg =
      Except.ok (sampleCallG (recoupCallArgs sampleFmt 1 sampleCfg)) :=
  ⟨(claimC4 ⟨1, true, false⟩ sampleFmt sampleCallG sampleCfg
      (by decide) (by decide) (by decide) (by decide) rfl rfl).1,
   (claimC4 ⟨1, true, false⟩ sampleFmt sampleCallG sampleCfg
      (by decide) (by decide) (by decide) (by decide) rfl rfl).2.1,
   (claimC4 ⟨1, true, false⟩ sampleFmt sampleCallG sampleCfg
      (by decide) (by decide) (by decide) (by decide) rfl rfl).2.2.1⟩

/-- C5: all three execution modes funnel through the one shared builder,
which hands the underlying contract call the same validated/formatted
argument tuple `recoupCallArgs` regardless of the bound mode. -/
theorem claimC5 (tc : TemplatesConfig) (fmt : RecoupFormatter)
    (call : RecoupContract) (cfg : CreateRecoupConfig)
    (h1 : validateAddress cfg.token = Except.ok ())
    (h2 : validateAddress cfg.nonWaterfallRecipientAddress = Except.ok ())
    (h3 : validateRecoupTranches cfg.tranches = Except.ok ())
    (h4 : validateRecoupNonWaterfallRecipient cfg.tranches.length
      cfg.nonWaterfallRecipientAddress cfg.nonWaterfallRecipientTrancheIndex = Except.ok ())
    (hp : tc.hasProvider = true) (hs : tc.hasSigner = true) :
    ∀ tt : TransactionType,
      TemplatesTransactions.createRecoupTransaction (clientState tt tc) fmt call cfg =
        Except.ok (call (recoupCallArgs fmt tc.chainId cfg)) := by
  intro tt
  exact createRecoupTransaction_ok _ fmt call cfg h1 h2 h3 h4 hp (fun _ => hs)

/-- C5 witness: the three modes at a concrete config all pass the same
tuple to the same contract call. -/
theorem claimC5_witness :
    TemplatesTransactions.createRecoupTransaction
        (clientState TransactionType.transaction ⟨1, true, true⟩) sampleFmt sampleCallT sampleCfg =
      Except.ok (sampleCallT (recoupCallArgs sampleFmt 1 sampleCfg)) ∧
    TemplatesTransactions.createRecoupTransaction
        (clientState TransactionType.gasEstimate ⟨1, true, true⟩) sampleFmt sampleCallT sampleCfg =
      Except.ok (sampleCallT (recoupCallArgs sampleFmt 1 sampleCfg)) ∧
    TemplatesTransactions.createRecoupTransaction
        (clientState TransactionType.callData ⟨1, true, true⟩) sampleFmt sampleCallT sampleCfg =
      Except.ok (sampleCallT (recoupCallArgs sampleFmt 1 sampleCfg)) :=
  ⟨claimC5 ⟨1, true, true⟩ sampleFmt sampleCallT sampleCfg
      (by decide) (by decide) (by decide) (by decide) rfl rfl TransactionType.transaction,
   claimC5 ⟨1, true, true⟩ sampleFmt sampleCallT sampleCfg
      (by decide) (by decide) (by decide) (by decide) rfl rfl TransactionType.gasEstimate,
   claimC5 ⟨1, true, true⟩ sampleFmt sampleCallT sampleCfg
      (by decide) (by decide) (by decide) (by decide) rfl rfl TransactionType.callData⟩

/-- C6: the result shape is fixed by the execution mode — an EstimateGas
`ok` value is exactly the gas quantity the underlying call produced, a
BuildCallData `ok` value is exactly its call-data payload, and an Execute
`ok` value is the `{ waterfallModuleId, event }` record whose event's
decoded arguments carry that identifier; no mode returns another mode's
shape. -/
theorem claimC6 (tc : TemplatesConfig) (fmt : RecoupFormatter)
    (cfg : CreateRecoupConfig)
    (h1 : validateAddress cfg.token = Except.ok ())
    (h2 : validateAddress cfg.nonWaterfallRecipientAddress = Except.ok ())
    (h3 : validateRecoupTranches cfg.tranches = Except.ok ())
    (h4 : validateRecoupNonWaterfallRecipient cfg.tranches.length
      cfg.nonWaterfallRecipientAddress cfg.nonWaterfallRecipientTrancheIndex = Except.ok ())
    (hp : tc.hasProvider = true) (hs : tc.hasSigner = true) :
    (∀ (call : RecoupContract) (g : Nat),
      TemplatesGasEstimates.createRecoup tc fmt call cfg = Except.ok g →
        call (recoupCallArgs fmt tc.chainId cfg) = TransactionFormat.gasEstimate g) ∧
    (∀ (call : RecoupContract) (cd : CallData),
      TemplatesCallData.createRecoup tc fmt call cfg = Except.ok cd →
        call (recoupCallArgs fmt tc.chainId cfg) = TransactionFormat.callData cd) ∧
    (∀ (call : RecoupContract) (r : CreateRecoupResult),
      TemplatesClient.createRecoup tc fmt call cfg = Except.ok r →
        ∃ tx : ContractTransaction,
          call (recoupCallArgs fmt tc.chainId cfg) =
            TransactionFormat.contractTransaction tx ∧
          r.event.args = some { waterfallModule := r.waterfallModuleId }) := by
  refine ⟨?_, ?_, ?_⟩
  · intro call g h
    rw [gasEstimates_run tc fmt call cfg h1 h2 h3 h4 hp] at h
    rcases hc : call (recoupCallArgs fmt tc.chainId cfg) with tx | g2 | cd2 <;> rw [hc] at h
    · simp at h
    · simp at h
      rw [h]
    · simp at h
  · intro call cd h
    rw [callData_run tc fmt call cfg h1 h2 h3 h4 hp] at h
    rcases hc : call (recoupCallArgs fmt tc.chainId cfg) with tx | g2 | cd2 <;> rw [hc] at h
    · simp at h
    · simp at h
    · simp at h
      rw [h]
  · intro call r h
    rw [templatesClient_createRecoup_run tc fmt call cfg h1 h2 h3 h4 hp hs] at h
    rcases hc : call (recoupCallArgs fmt tc.chainId cfg) with tx | g2 | cd2
    · rw [hc] at h
      refine ⟨tx, rfl, ?_⟩
      rcases hhead : (getTransactionEvents tx TemplatesClient.eventTopics).head? with _ | e
      · simp [hhead] at h
      · simp only [hhead] at h
        rcases hargs : e.args with _ | a
        · simp [hargs] at h
        · rcases r with ⟨rid, rev⟩
          simp only [hargs, Except.ok.injEq, CreateRecoupResult.mk.injEq] at h
          obtain ⟨hid, hev2⟩ := h
          subst hid
          subst hev2
          rw [hargs]
    · rw [hc] at h
      simp at h
    · rw [hc] at h
      simp at h

/-- C6 witness: concrete calls of each shape produce exactly their mode's
result shape. -/
theorem claimC6_witness :
    sampleCallG (recoupCallArgs sampleFmt 1 sampleCfg) =
      TransactionFormat.gasEstimate 21000 ∧
    sampleCallC (recoupCallArgs sampleFmt 1 sampleCfg) =
      TransactionFormat.callData ⟨addr1, 0, "0xdeadbeef"⟩ ∧
    (∃ tx : ContractTransaction,
      sampleCallT (recoupCallArgs sampleFmt 1 sampleCfg) =
        TransactionFormat.contractTransaction tx ∧
      ({ waterfallModuleId := addr3, event := sampleEvent } : CreateRecoupResult).event.args =
        some { waterfallModule := addr3 }) :=
  ⟨(claimC6 ⟨1, true, true⟩ sampleFmt sampleCfg
      (by decide) (by decide) (by decide) (by decide) rfl rfl).1 sampleCallG 21000 (by decide),
   (claimC6 ⟨1, true, true⟩ sampleFmt sampleCfg
      (by decide) (by decide) (by decide) (by decide) rfl rfl).2.1 sampleCallC
      ⟨addr1, 0, "0xdeadbeef"⟩ (by decide),
   (claimC6 ⟨1, true, true⟩ sampleFmt sampleCfg
      (by decide) (by decide) (by decide) (by decide) rfl rfl).2.2 sampleCallT
      { waterfallModuleId := addr3, event := sampleEvent } (by decide)⟩

/-- C7: when the mined transaction's logs contain a first matching event
at some position, the extractor keeps exactly the matching logs in order
and the facade returns that first event's decoded `waterfallModule`
argument as the entity identifier, together with the event. -/
theorem claimC7 (tc : TemplatesConfig) (fmt : RecoupFormatter)
    (call : RecoupContract) (cfg : CreateRecoupConfig)
    (pre post : List Event) (m : Event) (a : EventArgs) (tx : ContractTransaction)
    (h1 : validateAddress cfg.token = Except.ok ())
    (h2 : validateAddress cfg.nonWaterfallRecipientAddress = Except.ok ())
    (h3 : validateRecoupTranches cfg.tranches = Except.ok ())
    (h4 : validateRecoupNonWaterfallRecipient cfg.tranches.length
      cfg.nonWaterfallRecipientAddress cfg.nonWaterfallRecipientTrancheIndex = Except.ok ())
    (hp : tc.hasProvider = true) (hs : tc.hasSigner = true)
    (hc : call (recoupCallArgs fmt tc.chainId cfg) =
      TransactionFormat.contractTransaction tx)
    (hev : tx.events = pre ++ m :: post)
    (hpre : ∀ e ∈ pre, TemplatesClient.eventTopics.contains e.topic = false)
    (hm : TemplatesClient.eventTopics.contains m.topic = true)
    (ha : m.args = some a) :
    TemplatesClient.createRecoup tc fmt call cfg =
      Except.ok { waterfallModuleId := a.waterfallModule, event := m } := by
  have hrun := templatesClient_createRecoup_run tc fmt call cfg h1 h2 h3 h4 hp hs
  rw [hc] at hrun
  have hhead : (getTransactionEvents tx TemplatesClient.eventTopics).head? = some m := by
    rw [getTransactionEvents, hev]
    exact filter_head_first_match _ pre post m hpre hm
  rw [hrun]
  simp [hhead, ha]

/-- A mined transaction whose logs are a non-matching log, then the
matching `sampleEvent`, then a further matching log. -/
def mixedTx : ContractTransaction :=
  ⟨[⟨"topic:Other", none⟩, sampleEvent, ⟨createRecoupEventTopic, none⟩]⟩

/-- C7 witness: with a non-matching log before the match, the facade
returns the first matching event's decoded argument. -/
theorem claimC7_witness :
    TemplatesClient.createRecoup ⟨1, true, true⟩ sampleFmt
        (fun _ => TransactionFormat.contractTransaction mixedTx) sampleCfg =
      Except.ok { waterfallModuleId := addr3, event := sampleEvent } :=
  claimC7 ⟨1, true, true⟩ sampleFmt
    (fun _ => TransactionFormat.contractTransaction mixedTx) sampleCfg
    [⟨"topic:Other", none⟩] [⟨createRecoupEventTopic, none⟩] sampleEvent ⟨addr3⟩ mixedTx
    (by decide) (by decide) (by decide) (by decide) rfl rfl rfl rfl
    (by decide) (by decide) rfl

/-- C8: the non-waterfall-recipient cross-field rule — a zero recipient
with any set tranche index fails, a non-zero recipient with an unset
index fails (each with its dedicated `InvalidArgumentError`), and the
valid pairs (zero with unset index, non-zero with an in-range index)
pass. -/
theorem claimC8 (n : Nat) (addr : Address) (idx : Option Nat) :
    (addr = AddressZero → ∀ i, idx = some i →
      validateRecoupNonWaterfallRecipient n addr idx =
        Except.error (SplitsError.invalidArgument
          "Cannot set a tranche index without a non waterfall recipient")) ∧
    (addr ≠ AddressZero → idx = none →
      validateRecoupNonWaterfallRecipient n addr idx =
        Except.error (SplitsError.invalidArgument
          "Must specify the tranche index for the non waterfall recipient")) ∧
    (addr = AddressZero → idx = none →
      validateRecoupNonWaterfallRecipient n addr idx = Except.ok ()) ∧
    (addr ≠ AddressZero → ∀ i, idx = some i → i < n →
      validateRecoupNonWaterfallRecipient n addr idx = Except.ok ()) := by
  refine ⟨?_, ?_, ?_, ?_⟩
  · intro hz i hi
    subst hz hi
    simp [validateRecoupNonWaterfallRecipient]
  · intro hnz hi
    subst hi
    simp [validateRecoupNonWaterfallRecipient, hnz]
  · intro hz hi
    subst hz hi
    simp [validateRecoupNonWaterfallRecipient]
  · intro hnz i hi hlt
    subst hi
    simp [validateRecoupNonWaterfallRecipient, hnz, Nat.not_le.mpr hlt]

/-- C8 witness: the four cases of the cross-field rule at concrete
inputs. -/
theorem claimC8_witness :
    validateRecoupNonWaterfallRecipient 2 AddressZero (some 1) =
      Except.error (SplitsError.invalidArgument
        "Cannot set a tranche index without a non waterfall recipient") ∧
    validateRecoupNonWaterfallRecipient 2 addr1 none =
      Except.error (SplitsError.invalidArgument
        "Must specify the tranche index for the non waterfall recipient") ∧
    validateRecoupNonWaterfallRecipient 2 AddressZero none = Except.ok () ∧
    validateRecoupNonWaterfallRecipient 2 addr1 (some 1) = Except.ok () :=
  ⟨(claimC8 2 AddressZero (some 1)).1 rfl 1 rfl,
   (claimC8 2 addr1 none).2.1 (by decide) rfl,
   (claimC8 2 AddressZero none).2.2.1 rfl rfl,
   (claimC8 2 addr1 (some 1)).2.2.2 (by decide) 1 rfl (by decide)⟩

/-- C9: when the underlying call's answer does not match the bound
mode's shape, each variant fails with the `Invalid response` defect guard
(`InvalidResponseError`) instead of returning the mismatched value. -/
theorem claimC9 (tc : TemplatesConfig) (fmt : RecoupFormatter)
    (cfg : CreateRecoupConfig)
    (h1 : validateAddress cfg.token = Except.ok ())
    (h2 : validateAddress cfg.nonWaterfallRecipientAddress = Except.ok ())
    (h3 : validateRecoupTranches cfg.tranches = Except.ok ())
    (h4 : validateRecoupNonWaterfallRecipient cfg.tranches.length
      cfg.nonWaterfallRecipientAddress cfg.nonWaterfallRecipientTrancheIndex = Except.ok ())
    (hp : tc.hasProvider = true) (hs : tc.hasSigner = true) :
    (∀ call : RecoupContract,
      isContractTransaction (call (recoupCallArgs fmt tc.chainId cfg)) = false →
      TemplatesClient.submitCreateRecoupTransaction tc fmt call cfg =
        Except.error SplitsError.invalidResponse) ∧
    (∀ call : RecoupContract,
      isBigNumber (call (recoupCallArgs fmt tc.chainId cfg)) = false →
      TemplatesGasEstimates.createRecoup tc fmt call cfg =
        Except.error SplitsError.invalidResponse) ∧
    (∀ call : RecoupContract,
      isCallData (call (recoupCallArgs fmt tc.chainId cfg)) = false →
      TemplatesCallData.createRecoup tc fmt call cfg =
        Except.error SplitsError.invalidResponse) := by
  refine ⟨?_, ?_, ?_⟩
  · intro call hmis
    rw [submitCreateRecoup_run tc fmt call cfg h1 h2 h3 h4 hp hs]
    rcases hc : call (recoupCallArgs fmt tc.chainId cfg) with tx | g | cd
    · rw [hc] at hmis
      simp [isContractTransaction] at hmis
    · rfl
    · rfl
  · intro call hmis
    rw [gasEstimates_run tc fmt call cfg h1 h2 h3 h4 hp]
    rcases hc : call (recoupCallArgs fmt tc.chainId cfg) with tx | g | cd
    · rfl
    · rw [hc] at hmis
      simp [isBigNumber] at hmis
    · rfl
  · intro call hmis
    rw [callData_run tc fmt call cfg h1 h2 h3 h4 hp]
    rcases hc : call (recoupCallArgs fmt tc.chainId cfg) with tx | g | cd
    · rfl
    · rfl
    · rw [hc] at hmis
      simp [isCallData] at hmis

/-- C9 witness: mode-mismatched answers at a concrete config each
surface the `Invalid response` guard. -/
theorem claimC9_witness :
    TemplatesClient.submitCreateRecoupTransaction ⟨1, true, true⟩ sampleFmt sampleCallG sampleCfg =
      Except.error SplitsError.invalidResponse ∧
    TemplatesGasEstimates.createRecoup ⟨1, true, true⟩ sampleFmt sampleCallT sampleCfg =
      Except.error SplitsError.invalidResponse ∧
    TemplatesCallData.createRecoup ⟨1, true, true⟩ sampleFmt sampleCallG sampleCfg =
      Except.error SplitsError.invalidResponse :=
  ⟨(claimC9 ⟨1, true, true⟩ sampleFmt sampleCfg
      (by decide) (by decide) (by decide) (by decide) rfl rfl).1 sampleCallG (by decide),
   (claimC9 ⟨1, true, true⟩ sampleFmt sampleCfg
      (by decide) (by decide) (by decide) (by decide) rfl rfl).2.1 sampleCallT (by decide),
   (claimC9 ⟨1, true, true⟩ sampleFmt sampleCfg
      (by decide) (by decide) (by decide) (by decide) rfl rfl).2.2 sampleCallG (by decide)⟩

/-- C10: when the first matching event of the mined transaction carries
no decoded arguments (`event.args` absent), the Execute facade fails with
`TransactionFailedError`, exactly as when no event matches — a success
always carries a decoded `waterfallModule` argument. -/
theorem claimC10 (tc : TemplatesConfig) (fmt : RecoupFormatter)
    (call : RecoupContract) (cfg : CreateRecoupConfig)
    (pre post : List Event) (m : Event) (tx : ContractTransaction)
    (h1 : validateAddress cfg.token = Except.ok ())
    (h2 : validateAddress cfg.nonWaterfallRecipientAddress = Except.ok ())
    (h3 : validateRecoupTranches cfg.tranches = Except.ok ())
    (h4 : validateRecoupNonWaterfallRecipient cfg.tranches.length
      cfg.nonWaterfallRecipientAddress cfg.nonWaterfallRecipientTrancheIndex = Except.ok ())
    (hp : tc.hasProvider = true) (hs : tc.hasSigner = true)
    (hc : call (recoupCallArgs fmt tc.chainId cfg) =
      TransactionFormat.contractTransaction tx)
    (hev : tx.events = pre ++ m :: post)
    (hpre : ∀ e ∈ pre, TemplatesClient.eventTopics.contains e.topic = false)
    (hm : TemplatesClient.eventTopics.contains m.topic = true)
    (ha : m.args = none) :
    TemplatesClient.createRecoup tc fmt call cfg =
      Except.error SplitsError.transactionFailed := by
  have hrun := templatesClient_createRecoup_run tc fmt call cfg h1 h2 h3 h4 hp hs
  rw [hc] at hrun
  have hhead : (getTransactionEvents tx TemplatesClient.eventTopics).head? = some m := by
    rw [getTransactionEvents, hev]
    exact filter_head_first_match _ pre post m hpre hm
  rw [hrun]
  simp [hhead, ha]

/-- A mined transaction whose single log matches the topic but carries no
decoded arguments. -/
def argslessTx : ContractTransaction := ⟨[⟨createRecoupEventTopic, none⟩]⟩

/-- C10 witness: a matched-but-undecodable event at a concrete config
fails with `TransactionFailedError`. -/
theorem claimC10_witness :
    TemplatesClient.createRecoup ⟨1, true, true⟩ sampleFmt
        (fun _ => TransactionFormat.contractTransaction argslessTx) sampleCfg =
      Except.error SplitsError.transactionFailed :=
  claimC10 ⟨1, true, true⟩ sampleFmt
    (fun _ => TransactionFormat.contractTransaction argslessTx) sampleCfg
    [] [] ⟨createRecoupEventTopic, none⟩ argslessTx
    (by decide) (by decide) (by decide) (by decide) rfl rfl rfl rfl
    (by decide) (by decide) rfl
